import Mathlib

/-!
# Windows runner entry point (`windows/runner/main.cpp`)

A shallow embedding of `wWinMain`.  The function is straight-line glue around
operating-system calls, so a run is modelled as a function of the results those
calls return (`OS`) and produces the ordered list of calls it made together
with its exit code.  The message loop may run forever; it is unrolled with a
bound on the number of `GetMessage` calls, and a run that is still inside the
loop when the bound is reached has no exit code yet.
-/

namespace Runner

/-! ## Constants of the platform headers -/

/-- Value of `EXIT_SUCCESS` (stdlib.h). -/
def EXIT_SUCCESS : Int := 0

/-- Value of `EXIT_FAILURE` (stdlib.h). -/
def EXIT_FAILURE : Int := 1

/-- Value of `ATTACH_PARENT_PROCESS`, that is `(DWORD)-1` (wincon.h). -/
def ATTACH_PARENT_PROCESS : Nat := 4294967295

/-- Value of `COINIT_APARTMENTTHREADED` (objbase.h). -/
def COINIT_APARTMENTTHREADED : Nat := 2

/-- Value of `ERROR_ALREADY_EXISTS` (winerror.h). -/
def ERROR_ALREADY_EXISTS : Nat := 183

/-- Value of `SW_RESTORE` (winuser.h). -/
def SW_RESTORE : Nat := 9

/-! ## Data model -/

/-- What one call of `GetMessage(&msg, nullptr, 0, 0)` yields: the `BOOL`
it returns and the content of `msg` after the call. -/
structure GetMessageResult where
  ret : Int
  msg : Nat

/-- Results of the calls `wWinMain` makes.  Handles are numbers and `0` is
`nullptr`.  Every call except `GetMessage` is made at most once in a run, so
one field per call is enough; `getMessage i` is the result of the `i`-th call
of `GetMessage` (counting from 0). -/
structure OS where
  /-- Result of `AttachConsole(ATTACH_PARENT_PROCESS)`. -/
  attachConsole : Bool
  /-- Result of `IsDebuggerPresent()`. -/
  isDebuggerPresent : Bool
  /-- The `HRESULT` of `CoInitializeEx`; the code discards it. -/
  coInitializeEx : Int
  /-- The token `GdiplusStartup` stores through `&gdi_plus_token`, `none`
  when it stores nothing. -/
  gdiplusStartup : Option Nat
  /-- Handle returned by `CreateMutexW`. -/
  createMutexW : Nat
  /-- Result of `GetLastError()` right after `CreateMutexW`. -/
  getLastError : Nat
  /-- Window returned by `FindWindowW`. -/
  findWindowW : Nat
  /-- Result of `IsIconic(existing)`. -/
  isIconic : Bool
  /-- Vector returned by `GetCommandLineArguments()`. -/
  getCommandLineArguments : List String
  /-- Result of `window.Create(...)`. -/
  windowCreate : Bool
  /-- Results of the successive `GetMessage` calls. -/
  getMessage : Nat → GetMessageResult

/-- The calls a run can make, with the arguments the source passes. -/
inductive Call where
  | AttachConsole (processId : Nat)
  | IsDebuggerPresent
  | CreateAndAttachConsole
  | CoInitializeEx (reserved : Nat) (coInit : Nat)
  | GdiplusStartup
  | CreateMutexW (attributes : Nat) (initialOwner : Bool) (name : String)
  | GetLastError
  | FindWindowW (className : String)
  | IsIconic (hwnd : Nat)
  | ShowWindow (hwnd : Nat) (cmdShow : Nat)
  | SetForegroundWindow (hwnd : Nat)
  | DartProject (path : String)
  | GetCommandLineArguments
  | set_dart_entrypoint_arguments (arguments : List String)
  | FlutterWindow
  | Create (title : String) (origin : Int × Int) (size : Nat × Nat)
  | SetQuitOnClose (quitOnClose : Bool)
  | GetMessage (hwnd : Nat) (filterMin : Nat) (filterMax : Nat)
  | TranslateMessage (msg : Nat)
  | DispatchMessage (msg : Nat)
  | CoUninitialize
  | CloseHandle (handle : Nat)
  | GdiplusShutdown (token : Nat)
  deriving DecidableEq, Repr

/-- A run: the calls made so far, in order, and the value returned by
`wWinMain` (`none` while the run is still inside the message loop). -/
structure Run where
  trace : List Call
  exit : Option Int

/-! ## Classification of calls -/

/-- Calls of `CreateMutexW`, whatever the arguments. -/
def Call.isCreateMutexW : Call → Bool
  | .CreateMutexW _ _ _ => true
  | _ => false

/-- Calls of `window.Create`, whatever the arguments. -/
def Call.isCreate : Call → Bool
  | .Create _ _ _ => true
  | _ => false

/-- Calls of `GetMessage`. -/
def Call.isGetMessage : Call → Bool
  | .GetMessage _ _ _ => true
  | _ => false

/-- Calls of `project.set_dart_entrypoint_arguments`, whatever the list. -/
def Call.isSetArguments : Call → Bool
  | .set_dart_entrypoint_arguments _ => true
  | _ => false

/-- Calls of `CloseHandle`, whatever the handle. -/
def Call.isCloseHandle : Call → Bool
  | .CloseHandle _ => true
  | _ => false

/-- Calls of `ShowWindow`, whatever the arguments. -/
def Call.isShowWindow : Call → Bool
  | .ShowWindow _ _ => true
  | _ => false

/-- Calls of `SetForegroundWindow`, whatever the window. -/
def Call.isSetForegroundWindow : Call → Bool
  | .SetForegroundWindow _ => true
  | _ => false

/-- The message-pump calls and `SetQuitOnClose`: what follows a successful
`window.Create` up to the end of the loop. -/
def Call.isLoopCall : Call → Bool
  | .SetQuitOnClose _ => true
  | .GetMessage _ _ _ => true
  | .TranslateMessage _ => true
  | .DispatchMessage _ => true
  | _ => false

/-- The subsystem initialisations at the top of `wWinMain`: the console
calls, COM, GDI+ and the mutex. -/
def Call.isInitCall : Call → Bool
  | .AttachConsole _ => true
  | .IsDebuggerPresent => true
  | .CreateAndAttachConsole => true
  | .CoInitializeEx _ _ => true
  | .GdiplusStartup => true
  | .CreateMutexW _ _ _ => true
  | _ => false

/-- Calls on the `DartProject` or on a window (this process's
`FlutterWindow`, or the window of the running instance). -/
def Call.isProjectOrWindowCall : Call → Bool
  | .DartProject _ => true
  | .set_dart_entrypoint_arguments _ => true
  | .FlutterWindow => true
  | .Create _ _ _ => true
  | .SetQuitOnClose _ => true
  | .FindWindowW _ => true
  | .IsIconic _ => true
  | .ShowWindow _ _ => true
  | .SetForegroundWindow _ => true
  | _ => false

/-- The calls made on the window of the instance that is already running. -/
def Call.isFocusCall : Call → Bool
  | .FindWindowW _ => true
  | .IsIconic _ => true
  | .ShowWindow _ _ => true
  | .SetForegroundWindow _ => true
  | _ => false

/-- Calls of `GdiplusShutdown`, whatever the token. -/
def Call.isGdiplusShutdown : Call → Bool
  | .GdiplusShutdown _ => true
  | _ => false

/-- Construction of the `DartProject`. -/
def Call.isDartProject : Call → Bool
  | .DartProject _ => true
  | _ => false

/-- The three teardown calls after the loop. -/
def Call.isTeardownCall : Call → Bool
  | Call.CoUninitialize => true
  | .CloseHandle _ => true
  | .GdiplusShutdown _ => true
  | _ => false

/-! ## The program -/

/-- Lines 13-15: `if (!AttachConsole(ATTACH_PARENT_PROCESS) &&
IsDebuggerPresent()) CreateAndAttachConsole();`.  The `&&` short-circuits, so
`IsDebuggerPresent` is only asked when `AttachConsole` failed. -/
def consoleCalls (os : OS) : List Call :=
  if !os.attachConsole then
    if os.isDebuggerPresent then
      [.AttachConsole ATTACH_PARENT_PROCESS, .IsDebuggerPresent, .CreateAndAttachConsole]
    else
      [.AttachConsole ATTACH_PARENT_PROCESS, .IsDebuggerPresent]
  else
    [.AttachConsole ATTACH_PARENT_PROCESS]

/-- Lines 13-30: console, COM, GDI+ and the named mutex, in source order. -/
def initCalls (os : OS) : List Call :=
  consoleCalls os ++
    [.CoInitializeEx 0 COINIT_APARTMENTTHREADED,
     .GdiplusStartup,
     .CreateMutexW 0 false "Local\\VServeSingleInstanceMutex"]

/-- Value of `gdi_plus_token` after line 24: initialised to 0 on line 22 and
overwritten only if `GdiplusStartup` stores a token. -/
def gdi_plus_token (os : OS) : Nat :=
  match os.gdiplusStartup with
  | some t => t
  | none => 0

/-- Lines 35-41: look the running instance's window up and, if there is one,
restore it when minimised and bring it to the foreground. -/
def focusExistingCalls (os : OS) : List Call :=
  let existing := os.findWindowW
  [.FindWindowW "FLUTTER_RUNNER_WIN32_WINDOW"] ++
    (if existing ≠ 0 then
      [.IsIconic existing] ++
        (if os.isIconic then [.ShowWindow existing SW_RESTORE] else []) ++
        [.SetForegroundWindow existing]
    else [])

/-- Lines 46-56: the project, its entrypoint arguments, the window object and
`window.Create(L"V-Serve", origin, size)`. -/
def createCalls (os : OS) : List Call :=
  let command_line_arguments := os.getCommandLineArguments
  [.DartProject "data",
   .GetCommandLineArguments,
   .set_dart_entrypoint_arguments command_line_arguments,
   .FlutterWindow,
   .Create "V-Serve" (10, 10) (1280, 720)]

/-- Lines 62-65: `while (GetMessage(&msg, nullptr, 0, 0)) { TranslateMessage;
DispatchMessage; }`, started at the `i`-th `GetMessage` result and allowed
`fuel` calls of `GetMessage`.  The flag is `true` when the loop was left and
`false` when the bound was reached inside it. -/
def messageLoop (getMessage : Nat → GetMessageResult) : Nat → Nat → List Call × Bool
  | 0, _ => ([], false)
  | fuel + 1, i =>
    let r := getMessage i
    if r.ret ≠ 0 then
      let rest := messageLoop getMessage fuel (i + 1)
      (.GetMessage 0 0 0 :: .TranslateMessage r.msg :: .DispatchMessage r.msg :: rest.1, rest.2)
    else
      ([.GetMessage 0 0 0], true)

/-- Lines 67-74: `CoUninitialize`, then `CloseHandle` when the mutex handle is
not null, then `GdiplusShutdown` when the token is not zero. -/
def teardownCalls (os : OS) : List Call :=
  let single_instance_mutex := os.createMutexW
  [ Call.CoUninitialize] ++
    (if single_instance_mutex ≠ 0 then [.CloseHandle single_instance_mutex] else []) ++
    (if gdi_plus_token os ≠ 0 then [.GdiplusShutdown (gdi_plus_token os)] else [])

/-- The test of lines 31-32: the handle is not null and `GetLastError()` is
`ERROR_ALREADY_EXISTS`. -/
def isDuplicateLaunch (os : OS) : Bool :=
  os.createMutexW ≠ 0 && os.getLastError == ERROR_ALREADY_EXISTS

/-- Line 32 is only reached, and `GetLastError` only called, when the handle
is not null. -/
def lastErrorCalls (os : OS) : List Call :=
  if os.createMutexW ≠ 0 then [.GetLastError] else []

/-- The entry point `wWinMain(instance, prev, command_line, show_command)`
(`instance` is written `hinstance` here),
lines 9-76.  None of the four parameters is read by the body.  Destructors of
`window` and `project`, which run at each `return` after line 46, belong to
classes defined outside this file and are not part of the trace. -/
def wWinMain (hinstance prev : Nat) (command_line : String) (show_command : Int)
    (os : OS) (fuel : Nat) : Run :=
  let t0 := initCalls os ++ lastErrorCalls os
  if isDuplicateLaunch os then
    { trace := t0 ++ focusExistingCalls os, exit := some EXIT_SUCCESS }
  else
    let t1 := t0 ++ createCalls os
    if !os.windowCreate then
      { trace := t1, exit := some EXIT_FAILURE }
    else
      let loop := messageLoop os.getMessage fuel 0
      let t2 := t1 ++ [.SetQuitOnClose true] ++ loop.1
      if loop.2 then
        { trace := t2 ++ teardownCalls os, exit := some EXIT_SUCCESS }
      else
        { trace := t2, exit := none }

/-- The calls of `n` full iterations of the loop body, for the `GetMessage`
results number `i`, `i + 1`, ..., `i + n - 1`: each iteration is the
`GetMessage` call followed by `TranslateMessage` and `DispatchMessage` on the
message it delivered. -/
def pumped (getMessage : Nat → GetMessageResult) (i n : Nat) : List Call :=
  (List.range' i n).flatMap fun j =>
    [.GetMessage 0 0 0, .TranslateMessage (getMessage j).msg, .DispatchMessage (getMessage j).msg]

/-! ## Sample environments -/

/-- A message stream with two ordinary messages, then a `GetMessage` error
(-1), then `WM_QUIT`. -/
def sampleMessages : Nat → GetMessageResult := fun i =>
  if i < 2 then ⟨1, 100 + i⟩ else if i = 2 then ⟨-1, 7⟩ else ⟨0, 18⟩

/-- A first launch: the mutex is newly created, the window is created, and
the loop sees `sampleMessages`. -/
def freshOS : OS :=
  { attachConsole := false, isDebuggerPresent := true, coInitializeEx := 0,
    gdiplusStartup := some 77, createMutexW := 420, getLastError := 0,
    findWindowW := 0, isIconic := false,
    getCommandLineArguments := ["--verbose", "a b", ""],
    windowCreate := true, getMessage := sampleMessages }

/-- A second launch while an instance is running with a minimised window. -/
def duplicateOS : OS :=
  { freshOS with getLastError := ERROR_ALREADY_EXISTS, findWindowW := 9001, isIconic := true }

/-- A second launch at a moment when no window of the class exists, for
instance because the first process holds the mutex but has not yet created
its window. -/
def duplicateNoWindowOS : OS :=
  { freshOS with getLastError := ERROR_ALREADY_EXISTS, findWindowW := 0, isIconic := false }

/-- A first launch whose `window.Create` fails. -/
def createFailsOS : OS :=
  { freshOS with windowCreate := false }

/-- A second launch while an instance is running, on which `window.Create`
would fail if it were reached. -/
def duplicateCreateFailsOS : OS :=
  { duplicateOS with windowCreate := false }

/-! ## The message loop -/

theorem pumped_zero (g : Nat → GetMessageResult) (i : Nat) : pumped g i 0 = [] := by
  simp [pumped]

theorem pumped_succ (g : Nat → GetMessageResult) (i n : Nat) :
    pumped g i (n + 1) =
      .GetMessage 0 0 0 :: .TranslateMessage (g i).msg :: .DispatchMessage (g i).msg ::
        pumped g (i + 1) n := by
  simp [pumped, List.range'_succ]

/-- While every result is non-zero the loop keeps pumping. -/
theorem messageLoop_running (g : Nat → GetMessageResult) :
    ∀ n i, (∀ j, j < n → (g (i + j)).ret ≠ 0) → messageLoop g n i = (pumped g i n, false) := by
  intro n
  induction n with
  | zero => intro i _; simp [messageLoop, pumped_zero]
  | succ n ih =>
    intro i h
    have h0 : (g i).ret ≠ 0 := by simpa using h 0 (Nat.succ_pos n)
    have hrest : ∀ j, j < n → (g (i + 1 + j)).ret ≠ 0 := by
      intro j hj
      have := h (j + 1) (Nat.succ_lt_succ hj)
      rwa [show i + (j + 1) = i + 1 + j by omega] at this
    simp [messageLoop, h0, ih (i + 1) hrest, pumped_succ]

/-- The loop is left at the first zero result, given enough fuel to reach it. -/
theorem messageLoop_quit (g : Nat → GetMessageResult) :
    ∀ n i, (∀ j, j < n → (g (i + j)).ret ≠ 0) → (g (i + n)).ret = 0 →
      ∀ fuel, n < fuel → messageLoop g fuel i = (pumped g i n ++ [.GetMessage 0 0 0], true) := by
  intro n
  induction n with
  | zero =>
    intro i _ hz fuel hf
    obtain ⟨f, rfl⟩ : ∃ f, fuel = f + 1 := ⟨fuel - 1, by omega⟩
    have hz0 : (g i).ret = 0 := by simpa using hz
    simp [messageLoop, hz0, pumped_zero]
  | succ n ih =>
    intro i h hz fuel hf
    obtain ⟨f, rfl⟩ : ∃ f, fuel = f + 1 := ⟨fuel - 1, by omega⟩
    have h0 : (g i).ret ≠ 0 := by simpa using h 0 (Nat.succ_pos n)
    have hrest : ∀ j, j < n → (g (i + 1 + j)).ret ≠ 0 := by
      intro j hj
      have := h (j + 1) (Nat.succ_lt_succ hj)
      rwa [show i + (j + 1) = i + 1 + j by omega] at this
    have hz1 : (g (i + 1 + n)).ret = 0 := by
      rwa [show i + (n + 1) = i + 1 + n by omega] at hz
    simp [messageLoop, h0, ih (i + 1) hrest hz1 f (by omega), pumped_succ]

/-- A zero result within reach of the fuel ends the loop. -/
theorem messageLoop_exits_of_zero (g : Nat → GetMessageResult) :
    ∀ n i, (g (i + n)).ret = 0 → (messageLoop g (n + 1) i).2 = true := by
  intro n
  induction n with
  | zero => intro i hz; have hz0 : (g i).ret = 0 := by simpa using hz
            simp [messageLoop, hz0]
  | succ n ih =>
    intro i hz
    by_cases h0 : (g i).ret = 0
    · simp [messageLoop, h0]
    · have hz1 : (g (i + 1 + n)).ret = 0 := by
        rwa [show i + (n + 1) = i + 1 + n by omega] at hz
      have := ih (i + 1) hz1
      rw [messageLoop]
      simp [h0, this]

/-- The loop is only ever left at a zero result. -/
theorem zero_of_messageLoop_exits (g : Nat → GetMessageResult) :
    ∀ fuel i, (messageLoop g fuel i).2 = true → ∃ n, (g n).ret = 0 := by
  intro fuel
  induction fuel with
  | zero => intro i h; simp [messageLoop] at h
  | succ f ih =>
    intro i h
    by_cases h0 : (g i).ret = 0
    · exact ⟨i, h0⟩
    · rw [messageLoop] at h
      simp [h0] at h
      exact ih (i + 1) h

/-- Every call the loop makes is one of its three calls. -/
theorem messageLoop_countP (p : Call → Bool) (hG : p (.GetMessage 0 0 0) = false)
    (hT : ∀ m, p (.TranslateMessage m) = false) (hD : ∀ m, p (.DispatchMessage m) = false)
    (g : Nat → GetMessageResult) :
    ∀ fuel i, (messageLoop g fuel i).1.countP p = 0 := by
  intro fuel
  induction fuel with
  | zero => intro i; simp [messageLoop]
  | succ f ih =>
    intro i
    by_cases h0 : (g i).ret = 0
    · simp [messageLoop, h0, hG]
    · rw [messageLoop]
      simp [h0, hG, hT, hD, ih (i + 1)]

/-! ## Which calls each segment makes -/

theorem countP_eq_zero_of_all (p q : Call → Bool) (l : List Call)
    (hl : ∀ c, c ∈ l → q c = true) (hpq : ∀ c, q c = true → p c = false) :
    l.countP p = 0 := by
  rw [List.countP_eq_zero]
  intro c hc
  simp [hpq c (hl c hc)]

theorem initCalls_all (os : OS) : ∀ c, c ∈ initCalls os → c.isInitCall = true := by
  intro c hc
  have h : (initCalls os).all Call.isInitCall = true := by
    simp only [initCalls, consoleCalls]
    split_ifs <;> rfl
  exact List.all_eq_true.1 h c hc

theorem messageLoop_all (g : Nat → GetMessageResult) (fuel i : Nat) :
    ∀ c, c ∈ (messageLoop g fuel i).1 → c.isLoopCall = true := by
  intro c hc
  by_contra hn
  have h0 : (messageLoop g fuel i).1.countP (fun c => !c.isLoopCall) = 0 :=
    messageLoop_countP _ rfl (fun _ => rfl) (fun _ => rfl) g fuel i
  rw [List.countP_eq_zero] at h0
  exact h0 c hc (by simpa using hn)

theorem focusExistingCalls_all (os : OS) :
    ∀ c, c ∈ focusExistingCalls os → c.isFocusCall = true := by
  intro c hc
  have h : (focusExistingCalls os).all Call.isFocusCall = true := by
    simp only [focusExistingCalls]
    split_ifs <;> rfl
  exact List.all_eq_true.1 h c hc

theorem teardownCalls_all (os : OS) : ∀ c, c ∈ teardownCalls os → c.isTeardownCall = true := by
  intro c hc
  have h : (teardownCalls os).all Call.isTeardownCall = true := by
    simp only [teardownCalls]
    split_ifs <;> rfl
  exact List.all_eq_true.1 h c hc

theorem countP_lastErrorCalls (p : Call → Bool) (os : OS) (hp : p .GetLastError = false) :
    (lastErrorCalls os).countP p = 0 := by
  simp only [lastErrorCalls]
  split_ifs <;> simp [hp]

theorem isDuplicateLaunch_iff (os : OS) :
    isDuplicateLaunch os = true ↔ (os.createMutexW ≠ 0 ∧ os.getLastError = ERROR_ALREADY_EXISTS) := by
  simp [isDuplicateLaunch]

/-! ## The shape of a run -/

theorem lastErrorCalls_of_duplicate (os : OS) (hdup : isDuplicateLaunch os = true) :
    lastErrorCalls os = [.GetLastError] := by
  simp [isDuplicateLaunch] at hdup
  simp [lastErrorCalls, hdup.1]

theorem wWinMain_duplicate (hinstance prev : Nat) (command_line : String) (show_command : Int)
    (os : OS) (fuel : Nat) (hdup : isDuplicateLaunch os = true) :
    wWinMain hinstance prev command_line show_command os fuel =
      { trace := initCalls os ++ [.GetLastError] ++ focusExistingCalls os,
        exit := some EXIT_SUCCESS } := by
  simp [wWinMain, hdup, lastErrorCalls_of_duplicate os hdup]

theorem wWinMain_createFails (hinstance prev : Nat) (command_line : String) (show_command : Int)
    (os : OS) (fuel : Nat) (hdup : isDuplicateLaunch os = false) (hc : os.windowCreate = false) :
    wWinMain hinstance prev command_line show_command os fuel =
      { trace := initCalls os ++ lastErrorCalls os ++ createCalls os,
        exit := some EXIT_FAILURE } := by
  simp [wWinMain, hdup, hc]

theorem wWinMain_running (hinstance prev : Nat) (command_line : String) (show_command : Int)
    (os : OS) (fuel : Nat) (hdup : isDuplicateLaunch os = false) (hc : os.windowCreate = true)
    (hloop : (messageLoop os.getMessage fuel 0).2 = false) :
    wWinMain hinstance prev command_line show_command os fuel =
      { trace := initCalls os ++ lastErrorCalls os ++ createCalls os ++ [.SetQuitOnClose true] ++
          (messageLoop os.getMessage fuel 0).1,
        exit := none } := by
  simp [wWinMain, hdup, hc, hloop]

theorem wWinMain_quit (hinstance prev : Nat) (command_line : String) (show_command : Int)
    (os : OS) (fuel : Nat) (hdup : isDuplicateLaunch os = false) (hc : os.windowCreate = true)
    (hloop : (messageLoop os.getMessage fuel 0).2 = true) :
    wWinMain hinstance prev command_line show_command os fuel =
      { trace := initCalls os ++ lastErrorCalls os ++ createCalls os ++ [.SetQuitOnClose true] ++
          (messageLoop os.getMessage fuel 0).1 ++ teardownCalls os,
        exit := some EXIT_SUCCESS } := by
  simp [wWinMain, hdup, hc, hloop]

/-- Once the window exists, the run has returned exactly when the loop was left. -/
theorem wWinMain_exit_isSome_iff (hinstance prev : Nat) (command_line : String)
    (show_command : Int) (os : OS) (fuel : Nat) (hdup : isDuplicateLaunch os = false)
    (hc : os.windowCreate = true) :
    (wWinMain hinstance prev command_line show_command os fuel).exit.isSome = true ↔
      (messageLoop os.getMessage fuel 0).2 = true := by
  cases hloop : (messageLoop os.getMessage fuel 0).2
  · simp [wWinMain_running hinstance prev command_line show_command os fuel hdup hc hloop]
  · simp [wWinMain_quit hinstance prev command_line show_command os fuel hdup hc hloop]

/-- The exit code of a run that has returned. -/
theorem wWinMain_exit_eq (hinstance prev : Nat) (command_line : String) (show_command : Int)
    (os : OS) (fuel : Nat) (code : Int)
    (h : (wWinMain hinstance prev command_line show_command os fuel).exit = some code) :
    code = if isDuplicateLaunch os = false ∧ os.windowCreate = false then EXIT_FAILURE
      else EXIT_SUCCESS := by
  cases hdup : isDuplicateLaunch os
  · cases hc : os.windowCreate
    · rw [wWinMain_createFails hinstance prev command_line show_command os fuel hdup hc] at h
      simp at h
      simp [h]
    · cases hloop : (messageLoop os.getMessage fuel 0).2
      · rw [wWinMain_running hinstance prev command_line show_command os fuel hdup hc hloop] at h
        simp at h
      · rw [wWinMain_quit hinstance prev command_line show_command os fuel hdup hc hloop] at h
        simp at h
        simp [h]
  · rw [wWinMain_duplicate hinstance prev command_line show_command os fuel hdup] at h
    simp at h
    simp [h]

/-- The exit code does not read the results of the console calls, of
`CoInitializeEx` or of `GdiplusStartup`. -/
theorem wWinMain_exit_congr (hinstance prev : Nat) (command_line : String) (show_command : Int)
    (os os2 : OS) (fuel : Nat) (hdup : isDuplicateLaunch os2 = isDuplicateLaunch os)
    (hc : os2.windowCreate = os.windowCreate) (hg : os2.getMessage = os.getMessage) :
    (wWinMain hinstance prev command_line show_command os2 fuel).exit =
      (wWinMain hinstance prev command_line show_command os fuel).exit := by
  unfold wWinMain
  simp only [hdup, hc, hg]
  split_ifs <;> rfl

/-- Before the project is built, only initialisation calls and `GetLastError`
have been made, so no call of a kind `p` that excludes those. -/
theorem countP_startup (p : Call → Bool) (os : OS)
    (hinit : ∀ c, c.isInitCall = true → p c = false) (herr : p .GetLastError = false) :
    (initCalls os ++ lastErrorCalls os).countP p = 0 := by
  rw [List.countP_append, countP_eq_zero_of_all p _ _ (initCalls_all os) hinit,
    countP_lastErrorCalls p os herr]

/-- A launch that is not a duplicate makes the initialisation calls, then the
project and window calls up to `Create`, then only loop and teardown calls. -/
theorem wWinMain_fresh_shape (hinstance prev : Nat) (command_line : String) (show_command : Int)
    (os : OS) (fuel : Nat) (hdup : isDuplicateLaunch os = false) :
    ∃ post, (wWinMain hinstance prev command_line show_command os fuel).trace =
        initCalls os ++ lastErrorCalls os ++ createCalls os ++ post ∧
      ∀ p : Call → Bool, (∀ c, c.isLoopCall = true → p c = false) →
        (∀ c, c.isTeardownCall = true → p c = false) → post.countP p = 0 := by
  cases hc : os.windowCreate
  · refine ⟨[], ?_, fun _ _ _ => rfl⟩
    rw [wWinMain_createFails hinstance prev command_line show_command os fuel hdup hc]
    simp
  · cases hloop : (messageLoop os.getMessage fuel 0).2
    · refine ⟨[.SetQuitOnClose true] ++ (messageLoop os.getMessage fuel 0).1, ?_, ?_⟩
      · rw [wWinMain_running hinstance prev command_line show_command os fuel hdup hc hloop]
        simp
      · intro p hl _
        rw [List.countP_append, countP_eq_zero_of_all p _ _ (messageLoop_all _ _ _) hl]
        simp [hl (.SetQuitOnClose true) rfl]
    · refine ⟨[.SetQuitOnClose true] ++ (messageLoop os.getMessage fuel 0).1 ++
        teardownCalls os, ?_, ?_⟩
      · rw [wWinMain_quit hinstance prev command_line show_command os fuel hdup hc hloop]
        simp
      · intro p hl ht
        rw [List.countP_append, List.countP_append,
          countP_eq_zero_of_all p _ _ (messageLoop_all _ _ _) hl,
          countP_eq_zero_of_all p _ _ (teardownCalls_all os) ht]
        simp [hl (.SetQuitOnClose true) rfl]

theorem filter_eq_nil_of_countP (p : Call → Bool) (l : List Call) (h : l.countP p = 0) :
    l.filter p = [] := by
  rw [List.countP_eq_zero] at h
  rw [List.filter_eq_nil_iff]
  exact h

/-- A loop that was left made `GetMessage` its last call. -/
theorem messageLoop_getLast (g : Nat → GetMessageResult) :
    ∀ fuel i, (messageLoop g fuel i).2 = true →
      ∃ front, (messageLoop g fuel i).1 = front ++ [.GetMessage 0 0 0] := by
  intro fuel
  induction fuel with
  | zero => intro i h; simp [messageLoop] at h
  | succ f ih =>
    intro i h
    by_cases h0 : (g i).ret = 0
    · exact ⟨[], by simp [messageLoop, h0]⟩
    · rw [messageLoop] at h ⊢
      simp only [h0, ne_eq, not_false_eq_true, if_true] at h ⊢
      obtain ⟨front, hfront⟩ := ih (i + 1) h
      exact ⟨.GetMessage 0 0 0 :: .TranslateMessage (g i).msg :: .DispatchMessage (g i).msg ::
        front, by simp [hfront]⟩

/-- Every run starts with the initialisation calls and makes none of them
again afterwards. -/
theorem wWinMain_init_shape (hinstance prev : Nat) (command_line : String) (show_command : Int)
    (os : OS) (fuel : Nat) :
    ∃ rest, (wWinMain hinstance prev command_line show_command os fuel).trace =
        initCalls os ++ rest ∧ rest.countP Call.isInitCall = 0 := by
  cases hdup : isDuplicateLaunch os
  · obtain ⟨post, htrace, hpost⟩ :=
      wWinMain_fresh_shape hinstance prev command_line show_command os fuel hdup
    refine ⟨lastErrorCalls os ++ createCalls os ++ post, ?_, ?_⟩
    · rw [htrace]
      simp
    · rw [List.countP_append, List.countP_append, countP_lastErrorCalls _ os rfl,
        hpost _ (by intro c; cases c <;> simp [Call.isLoopCall, Call.isInitCall])
          (by intro c; cases c <;> simp [Call.isTeardownCall, Call.isInitCall])]
      rfl
  · refine ⟨[.GetLastError] ++ focusExistingCalls os, ?_, ?_⟩
    · rw [wWinMain_duplicate hinstance prev command_line show_command os fuel hdup]
      simp
    · rw [List.countP_append, countP_eq_zero_of_all _ _ _ (focusExistingCalls_all os)
        (by intro c; cases c <;> simp [Call.isFocusCall, Call.isInitCall])]
      rfl

/-- The initialisation calls, spelled out. -/
theorem initCalls_eq (os : OS) :
    initCalls os =
      [Call.AttachConsole ATTACH_PARENT_PROCESS] ++
        (if os.attachConsole = false then [Call.IsDebuggerPresent] else []) ++
        (if os.attachConsole = false ∧ os.isDebuggerPresent = true then
          [Call.CreateAndAttachConsole] else []) ++
        [Call.CoInitializeEx 0 COINIT_APARTMENTTHREADED, Call.GdiplusStartup,
          Call.CreateMutexW 0 false "Local\\VServeSingleInstanceMutex"] := by
  cases h1 : os.attachConsole <;> cases h2 : os.isDebuggerPresent <;>
    simp [initCalls, consoleCalls, h1, h2]

/-! ## Claims -/

/-- C10: the message loop runs until `GetMessage` returns 0 and only until
then.  (1) As long as the first `n` results are non-zero, `n` calls of
`GetMessage` leave the loop still running, having translated and dispatched
each of the `n` messages once, in order.  (2) If the first zero is result
number `n`, any bound above `n` sees the loop exit right after that
`GetMessage`, with exactly the `n` earlier messages pumped.  (3) A result of
-1 is pumped like any message and the loop goes on to the next result.
(4) The loop exits for some bound if and only if some result is 0, and (5) a
run of `wWinMain` that has created its window returns for some bound if and
only if some result is 0. -/
theorem messageLoop_runs_until_quit (g : Nat → GetMessageResult) :
    (∀ n, (∀ j, j < n → (g j).ret ≠ 0) → messageLoop g n 0 = (pumped g 0 n, false)) ∧
    (∀ n, (∀ j, j < n → (g j).ret ≠ 0) → (g n).ret = 0 →
      ∀ fuel, n < fuel → messageLoop g fuel 0 = (pumped g 0 n ++ [.GetMessage 0 0 0], true)) ∧
    (∀ fuel i, (g i).ret = -1 →
      messageLoop g (fuel + 1) i =
        (.GetMessage 0 0 0 :: .TranslateMessage (g i).msg :: .DispatchMessage (g i).msg ::
          (messageLoop g fuel (i + 1)).1, (messageLoop g fuel (i + 1)).2)) ∧
    ((∃ fuel, (messageLoop g fuel 0).2 = true) ↔ ∃ n, (g n).ret = 0) ∧
    (∀ (hinstance prev : Nat) (command_line : String) (show_command : Int) (os : OS),
      os.getMessage = g → isDuplicateLaunch os = false → os.windowCreate = true →
      ((∃ fuel, (wWinMain hinstance prev command_line show_command os fuel).exit.isSome = true) ↔
        ∃ n, (g n).ret = 0)) := by
  have hiff : (∃ fuel, (messageLoop g fuel 0).2 = true) ↔ ∃ n, (g n).ret = 0 := by
    constructor
    · rintro ⟨fuel, h⟩
      exact zero_of_messageLoop_exits g fuel 0 h
    · rintro ⟨n, hn⟩
      exact ⟨n + 1, messageLoop_exits_of_zero g n 0 (by simpa using hn)⟩
  refine ⟨?_, ?_, ?_, hiff, ?_⟩
  · intro n h
    exact messageLoop_running g n 0 (by simpa using h)
  · intro n h hz fuel hf
    exact messageLoop_quit g n 0 (by simpa using h) (by simpa using hz) fuel hf
  · intro fuel i h
    rw [messageLoop]
    simp [h]
  · intro hinstance prev command_line show_command os hg hdup hc
    subst hg
    rw [← hiff]
    constructor
    · rintro ⟨fuel, h⟩
      exact ⟨fuel, (wWinMain_exit_isSome_iff hinstance prev command_line show_command os fuel
        hdup hc).1 h⟩
    · rintro ⟨fuel, h⟩
      exact ⟨fuel, (wWinMain_exit_isSome_iff hinstance prev command_line show_command os fuel
        hdup hc).2 h⟩

/-- Witness for C10 on `sampleMessages` (two messages, an error result -1,
then 0): with a bound of 4 the loop pumps the three non-zero results and
exits at the fourth call. -/
theorem messageLoop_runs_until_quit_witness :
    (∀ j, j < 3 → (sampleMessages j).ret ≠ 0) ∧ (sampleMessages 3).ret = 0 ∧
    (sampleMessages 2).ret = -1 ∧
    messageLoop sampleMessages 4 0 =
      ([.GetMessage 0 0 0, .TranslateMessage 100, .DispatchMessage 100,
        .GetMessage 0 0 0, .TranslateMessage 101, .DispatchMessage 101,
        .GetMessage 0 0 0, .TranslateMessage 7, .DispatchMessage 7,
        .GetMessage 0 0 0], true) :=
  ⟨by decide, by decide, by decide,
    (messageLoop_runs_until_quit sampleMessages).2.1 3 (by decide) (by decide) 4 (by decide)⟩

/-- C1, counterexample: a failure of `CreateMutexW` can change the exit code.
On a second launch whose `window.Create` would fail, a non-null handle with
`ERROR_ALREADY_EXISTS` takes the early return of line 42 with `EXIT_SUCCESS`;
the same call results with a null handle skip the test of line 31, reach the
failing `window.Create` and return `EXIT_FAILURE`. -/
theorem null_mutex_changes_exit_code :
    isDuplicateLaunch duplicateCreateFailsOS = true ∧
    duplicateCreateFailsOS.windowCreate = false ∧
    (wWinMain 0 0 "app.exe" 1 duplicateCreateFailsOS 5).exit = some EXIT_SUCCESS ∧
    (wWinMain 0 0 "app.exe" 1 { duplicateCreateFailsOS with createMutexW := 0 } 5).exit =
      some EXIT_FAILURE ∧
    (wWinMain 0 0 "app.exe" 1 { duplicateCreateFailsOS with createMutexW := 0 } 5).exit ≠
      (wWinMain 0 0 "app.exe" 1 duplicateCreateFailsOS 5).exit := by
  decide

/-- C1, amended: the exit code as a function of the call results.
(1) Whenever a run has returned, its code is `EXIT_FAILURE` exactly when the
launch is not a duplicate and `window.Create` returned false, and
`EXIT_SUCCESS` otherwise; `EXIT_SUCCESS` is 0 and `EXIT_FAILURE` is not.
(2) Runs do return: a duplicate launch returns `EXIT_SUCCESS` and a failed
`window.Create` returns `EXIT_FAILURE` for every bound on the loop, and a run
whose window was created returns `EXIT_SUCCESS` for some bound as soon as some
`GetMessage` result is 0.  (3) Replacing the results of `AttachConsole`,
`IsDebuggerPresent`, `CoInitializeEx` and `GdiplusStartup` by any others
leaves the exit code unchanged.  (4) A `CreateMutexW` that returns null leaves
the exit code unchanged whenever the launch is not a duplicate with the handle
it did return; in general a run with a null handle is never a duplicate
launch, so its code is `EXIT_FAILURE` exactly when `window.Create` returned
false. -/
theorem exit_code_contract (hinstance prev : Nat) (command_line : String) (show_command : Int)
    (os : OS) :
    (∀ fuel code, (wWinMain hinstance prev command_line show_command os fuel).exit = some code →
      (code = EXIT_FAILURE ↔ (isDuplicateLaunch os = false ∧ os.windowCreate = false)) ∧
      (¬(isDuplicateLaunch os = false ∧ os.windowCreate = false) → code = EXIT_SUCCESS)) ∧
    EXIT_SUCCESS = 0 ∧ EXIT_FAILURE ≠ 0 ∧
    (isDuplicateLaunch os = true → ∀ fuel,
      (wWinMain hinstance prev command_line show_command os fuel).exit = some EXIT_SUCCESS) ∧
    (isDuplicateLaunch os = false → os.windowCreate = false → ∀ fuel,
      (wWinMain hinstance prev command_line show_command os fuel).exit = some EXIT_FAILURE) ∧
    (isDuplicateLaunch os = false → os.windowCreate = true → ∀ n, (os.getMessage n).ret = 0 →
      ∃ fuel, (wWinMain hinstance prev command_line show_command os fuel).exit
        = some EXIT_SUCCESS) ∧
    (∀ (a d : Bool) (c : Int) (t : Option Nat) (fuel : Nat),
      (wWinMain hinstance prev command_line show_command
          { os with attachConsole := a, isDebuggerPresent := d, coInitializeEx := c,
                    gdiplusStartup := t } fuel).exit =
        (wWinMain hinstance prev command_line show_command os fuel).exit) ∧
    (isDuplicateLaunch os = false → ∀ fuel,
      (wWinMain hinstance prev command_line show_command { os with createMutexW := 0 } fuel).exit =
        (wWinMain hinstance prev command_line show_command os fuel).exit) ∧
    (∀ fuel code,
      (wWinMain hinstance prev command_line show_command { os with createMutexW := 0 } fuel).exit
        = some code →
      (code = EXIT_FAILURE ↔ os.windowCreate = false)) := by
  refine ⟨?_, rfl, by decide, ?_, ?_, ?_, ?_, ?_, ?_⟩
  · intro fuel code h
    have hcode := wWinMain_exit_eq hinstance prev command_line show_command os fuel code h
    by_cases hf : isDuplicateLaunch os = false ∧ os.windowCreate = false
    · rw [if_pos hf] at hcode
      exact ⟨⟨fun _ => hf, fun _ => hcode⟩, fun hn => absurd hf hn⟩
    · rw [if_neg hf] at hcode
      refine ⟨⟨fun hc => ?_, fun h2 => absurd h2 hf⟩, fun _ => hcode⟩
      rw [hcode] at hc
      exact absurd hc (by decide)
  · intro hdup fuel
    rw [wWinMain_duplicate hinstance prev command_line show_command os fuel hdup]
  · intro hdup hc fuel
    rw [wWinMain_createFails hinstance prev command_line show_command os fuel hdup hc]
  · intro hdup hc n hn
    refine ⟨n + 1, ?_⟩
    have hloop := messageLoop_exits_of_zero os.getMessage n 0 (by simpa using hn)
    rw [wWinMain_quit hinstance prev command_line show_command os (n + 1) hdup hc hloop]
  · intro a d c t fuel
    exact wWinMain_exit_congr hinstance prev command_line show_command os _ fuel rfl rfl rfl
  · intro hdup fuel
    have hdup0 : isDuplicateLaunch { os with createMutexW := 0 } = isDuplicateLaunch os := by
      rw [hdup]
      simp [isDuplicateLaunch]
    exact wWinMain_exit_congr hinstance prev command_line show_command os _ fuel hdup0 rfl rfl
  · intro fuel code h
    have hnull : isDuplicateLaunch { os with createMutexW := 0 } = false := by
      simp [isDuplicateLaunch]
    have hcode := wWinMain_exit_eq hinstance prev command_line show_command _ fuel code h
    rw [hnull] at hcode
    cases hc : os.windowCreate
    · simp only [hc, and_self, if_true] at hcode
      simp [hcode]
    · have hne : ¬((false : Bool) = false ∧ true = false) := by decide
      simp only [hc, if_neg hne] at hcode
      rw [hcode]
      decide

/-- Witness for C1 (amended) on a launch whose `window.Create` fails: the run returns
`EXIT_FAILURE`, which is 1. -/
theorem exit_code_contract_witness :
    (wWinMain 0 0 "app.exe" 1 createFailsOS 5).exit = some EXIT_FAILURE ∧
    (EXIT_FAILURE = EXIT_FAILURE ↔
      (isDuplicateLaunch createFailsOS = false ∧ createFailsOS.windowCreate = false)) :=
  ⟨by decide,
    ((exit_code_contract 0 0 "app.exe" 1 createFailsOS).1 5 EXIT_FAILURE (by decide)).1⟩

/-- C2: a run returns before the `DartProject` is constructed, before
`window.Create` and before `GetMessage` if and only if `CreateMutexW` returned
a non-null handle and `GetLastError` reported `ERROR_ALREADY_EXISTS`.  In that
case it returns `EXIT_SUCCESS` having built no project, created no window and
run no message loop; in every other case (new mutex, or null handle) the run
goes on to call `window.Create`. -/
theorem duplicate_launch_returns_early (hinstance prev : Nat) (command_line : String)
    (show_command : Int) (os : OS) (fuel : Nat) :
    (((wWinMain hinstance prev command_line show_command os fuel).exit.isSome = true ∧
      (wWinMain hinstance prev command_line show_command os fuel).trace.countP
        Call.isDartProject = 0 ∧
      (wWinMain hinstance prev command_line show_command os fuel).trace.countP
        Call.isCreate = 0 ∧
      (wWinMain hinstance prev command_line show_command os fuel).trace.countP
        Call.isGetMessage = 0) ↔
      (os.createMutexW ≠ 0 ∧ os.getLastError = ERROR_ALREADY_EXISTS)) ∧
    ((os.createMutexW ≠ 0 ∧ os.getLastError = ERROR_ALREADY_EXISTS) →
      (wWinMain hinstance prev command_line show_command os fuel).exit = some EXIT_SUCCESS ∧
      (wWinMain hinstance prev command_line show_command os fuel).trace.countP
        Call.isDartProject = 0 ∧
      (wWinMain hinstance prev command_line show_command os fuel).trace.countP
        Call.isCreate = 0 ∧
      (wWinMain hinstance prev command_line show_command os fuel).trace.countP
        Call.isLoopCall = 0) ∧
    (¬(os.createMutexW ≠ 0 ∧ os.getLastError = ERROR_ALREADY_EXISTS) →
      Call.Create "V-Serve" (10, 10) (1280, 720) ∈
        (wWinMain hinstance prev command_line show_command os fuel).trace) := by
  have hyes : isDuplicateLaunch os = true →
      (wWinMain hinstance prev command_line show_command os fuel).exit = some EXIT_SUCCESS ∧
      (wWinMain hinstance prev command_line show_command os fuel).trace.countP
        Call.isDartProject = 0 ∧
      (wWinMain hinstance prev command_line show_command os fuel).trace.countP
        Call.isCreate = 0 ∧
      (wWinMain hinstance prev command_line show_command os fuel).trace.countP
        Call.isLoopCall = 0 ∧
      (wWinMain hinstance prev command_line show_command os fuel).trace.countP
        Call.isGetMessage = 0 := by
    intro hdup
    rw [wWinMain_duplicate hinstance prev command_line show_command os fuel hdup]
    have hfocus := focusExistingCalls_all os
    have hinit := initCalls_all os
    refine ⟨rfl, ?_, ?_, ?_, ?_⟩ <;>
      simp only [List.countP_append, List.countP_cons, List.countP_nil] <;>
      rw [countP_eq_zero_of_all _ _ _ hinit (by intro c; cases c <;> simp [Call.isInitCall,
          Call.isDartProject, Call.isCreate, Call.isLoopCall, Call.isGetMessage]),
        countP_eq_zero_of_all _ _ _ hfocus (by intro c; cases c <;> simp [
          Call.isFocusCall, Call.isDartProject, Call.isCreate, Call.isLoopCall,
          Call.isGetMessage])] <;>
      rfl
  have hno : isDuplicateLaunch os = false →
      Call.Create "V-Serve" (10, 10) (1280, 720) ∈
        (wWinMain hinstance prev command_line show_command os fuel).trace := by
    intro hdup
    cases hc : os.windowCreate
    · rw [wWinMain_createFails hinstance prev command_line show_command os fuel hdup hc]
      simp [createCalls]
    · cases hloop : (messageLoop os.getMessage fuel 0).2
      · rw [wWinMain_running hinstance prev command_line show_command os fuel hdup hc hloop]
        simp [createCalls]
      · rw [wWinMain_quit hinstance prev command_line show_command os fuel hdup hc hloop]
        simp [createCalls]
  rw [← isDuplicateLaunch_iff]
  refine ⟨⟨?_, ?_⟩, ?_, ?_⟩
  · rintro ⟨_, _, hcreate, _⟩
    by_contra hdup
    have hmem := hno (by simpa using hdup)
    rw [List.countP_eq_zero] at hcreate
    exact hcreate _ hmem rfl
  · intro hdup
    obtain ⟨h1, h2, h3, _, h5⟩ := hyes hdup
    exact ⟨by simp [h1], h2, h3, h5⟩
  · intro hdup
    obtain ⟨h1, h2, h3, h4, _⟩ := hyes hdup
    exact ⟨h1, h2, h3, h4⟩
  · intro hdup
    exact hno (by simpa using hdup)

/-- Witness for C2 on a second launch: the mutex handle is non-null and the
last error is `ERROR_ALREADY_EXISTS`, and the run returns `EXIT_SUCCESS`
without project, window or loop calls. -/
theorem duplicate_launch_returns_early_witness :
    (duplicateOS.createMutexW ≠ 0 ∧ duplicateOS.getLastError = ERROR_ALREADY_EXISTS) ∧
    (wWinMain 0 0 "app.exe" 1 duplicateOS 5).exit = some EXIT_SUCCESS ∧
    (wWinMain 0 0 "app.exe" 1 duplicateOS 5).trace.countP Call.isDartProject = 0 ∧
    (wWinMain 0 0 "app.exe" 1 duplicateOS 5).trace.countP Call.isCreate = 0 ∧
    (wWinMain 0 0 "app.exe" 1 duplicateOS 5).trace.countP Call.isLoopCall = 0 :=
  ⟨by decide, (duplicate_launch_returns_early 0 0 "app.exe" 1 duplicateOS 5).2.1 (by decide)⟩

/-- C3, counterexample: a duplicate launch on which `FindWindowW` finds no
window of class `FLUTTER_RUNNER_WIN32_WINDOW` returns `EXIT_SUCCESS` having
called neither `SetForegroundWindow` nor `ShowWindow`; its last call is
`FindWindowW`. -/
theorem duplicate_without_window_not_foregrounded :
    isDuplicateLaunch duplicateNoWindowOS = true ∧
    duplicateNoWindowOS.findWindowW = 0 ∧
    (wWinMain 0 0 "app.exe" 1 duplicateNoWindowOS 5).exit = some EXIT_SUCCESS ∧
    (wWinMain 0 0 "app.exe" 1 duplicateNoWindowOS 5).trace.countP
      Call.isSetForegroundWindow = 0 ∧
    (wWinMain 0 0 "app.exe" 1 duplicateNoWindowOS 5).trace.countP Call.isShowWindow = 0 ∧
    (wWinMain 0 0 "app.exe" 1 duplicateNoWindowOS 5).trace.getLast? =
      some (Call.FindWindowW "FLUTTER_RUNNER_WIN32_WINDOW") := by
  decide

/-- C3, amended: on a duplicate launch the run calls `FindWindowW` for class
`FLUTTER_RUNNER_WIN32_WINDOW` right after the mutex test.  When that returns a
window, the remaining calls are `IsIconic` on it, then `ShowWindow(existing,
SW_RESTORE)` exactly when `IsIconic` returned true, then `SetForegroundWindow`
on it, and nothing else.  When it returns null, `FindWindowW` is the last call.
No call before `FindWindowW` touches a window, and the run returns
`EXIT_SUCCESS` either way. -/
theorem duplicate_launch_focuses_found_window (hinstance prev : Nat) (command_line : String)
    (show_command : Int) (os : OS) (fuel : Nat) (hdup : isDuplicateLaunch os = true) :
    (os.findWindowW ≠ 0 →
      (wWinMain hinstance prev command_line show_command os fuel).trace =
        initCalls os ++ [.GetLastError] ++
          [.FindWindowW "FLUTTER_RUNNER_WIN32_WINDOW", .IsIconic os.findWindowW] ++
          (if os.isIconic = true then [.ShowWindow os.findWindowW SW_RESTORE] else []) ++
          [.SetForegroundWindow os.findWindowW]) ∧
    (os.findWindowW = 0 →
      (wWinMain hinstance prev command_line show_command os fuel).trace =
        initCalls os ++ [.GetLastError] ++ [.FindWindowW "FLUTTER_RUNNER_WIN32_WINDOW"]) ∧
    (initCalls os ++ [Call.GetLastError]).countP Call.isFocusCall = 0 ∧
    (wWinMain hinstance prev command_line show_command os fuel).exit = some EXIT_SUCCESS := by
  rw [wWinMain_duplicate hinstance prev command_line show_command os fuel hdup]
  refine ⟨?_, ?_, ?_, rfl⟩
  · intro hw
    simp [focusExistingCalls, hw]
  · intro hw
    simp [focusExistingCalls, hw]
  · rw [List.countP_append, countP_eq_zero_of_all _ _ _ (initCalls_all os)
      (by intro c; cases c <;> simp [Call.isInitCall, Call.isFocusCall])]
    rfl

/-- Witness for C3 (amended) on a second launch whose first instance has a
minimised window 9001. -/
theorem duplicate_launch_focuses_found_window_witness :
    isDuplicateLaunch duplicateOS = true ∧ duplicateOS.findWindowW ≠ 0 ∧
    (wWinMain 0 0 "app.exe" 1 duplicateOS 5).trace =
      initCalls duplicateOS ++ [.GetLastError] ++
        [.FindWindowW "FLUTTER_RUNNER_WIN32_WINDOW", .IsIconic 9001] ++
        [.ShowWindow 9001 SW_RESTORE] ++ [.SetForegroundWindow 9001] :=
  ⟨by decide, by decide,
    (duplicate_launch_focuses_found_window 0 0 "app.exe" 1 duplicateOS 5 (by decide)).1
      (by decide)⟩

/-- C4: when the launch is not a duplicate and `window.Create` returns false,
the run returns `EXIT_FAILURE` (non-zero) for every bound on the loop, the
failed `Create` is its last call, and it makes no call of `SetQuitOnClose`,
`GetMessage`, `TranslateMessage` or `DispatchMessage` at all. -/
theorem create_failure_returns_immediately (hinstance prev : Nat) (command_line : String)
    (show_command : Int) (os : OS) (fuel : Nat) (hdup : isDuplicateLaunch os = false)
    (hc : os.windowCreate = false) :
    (wWinMain hinstance prev command_line show_command os fuel).exit = some EXIT_FAILURE ∧ EXIT_FAILURE ≠ 0 ∧
    (wWinMain hinstance prev command_line show_command os fuel).trace.getLast? = some (Call.Create "V-Serve" (10, 10) (1280, 720)) ∧
    (wWinMain hinstance prev command_line show_command os fuel).trace.countP Call.isCreate = 1 ∧
    (wWinMain hinstance prev command_line show_command os fuel).trace.countP Call.isLoopCall = 0 := by
  rw [wWinMain_createFails hinstance prev command_line show_command os fuel hdup hc]
  refine ⟨rfl, by decide, ?_, ?_, ?_⟩
  · simp [createCalls]
  · rw [List.countP_append, countP_startup _ os
      (by intro c; cases c <;> simp [Call.isInitCall, Call.isCreate]) rfl]
    rfl
  · rw [List.countP_append, countP_startup _ os
      (by intro c; cases c <;> simp [Call.isInitCall, Call.isLoopCall]) rfl]
    rfl

/-- Witness for C4 on a first launch whose `window.Create` fails. -/
theorem create_failure_returns_immediately_witness :
    isDuplicateLaunch createFailsOS = false ∧ createFailsOS.windowCreate = false ∧
    (wWinMain 0 0 "app.exe" 1 createFailsOS 5).exit = some EXIT_FAILURE ∧
    (wWinMain 0 0 "app.exe" 1 createFailsOS 5).trace.countP Call.isLoopCall = 0 :=
  ⟨by decide, by decide,
    (create_failure_returns_immediately 0 0 "app.exe" 1 createFailsOS 5 (by decide)
      (by decide)).1,
    (create_failure_returns_immediately 0 0 "app.exe" 1 createFailsOS 5 (by decide)
      (by decide)).2.2.2.2⟩

/-- C5, the code at the failing input: a first launch that owns the mutex
(handle 420, last error 0) and whose `window.Create` fails returns
`EXIT_FAILURE` with `Create` as its last call and without any `CloseHandle`,
`CoUninitialize` or `GdiplusShutdown`; the same launch with a window that is
created and a loop that exits calls `CloseHandle(420)` exactly once. -/
theorem create_failure_skips_CloseHandle :
    createFailsOS.createMutexW = 420 ∧ createFailsOS.getLastError ≠ ERROR_ALREADY_EXISTS ∧
    createFailsOS.windowCreate = false ∧
    (wWinMain 0 0 "app.exe" 1 createFailsOS 5).exit = some EXIT_FAILURE ∧
    (wWinMain 0 0 "app.exe" 1 createFailsOS 5).trace.countP Call.isCloseHandle = 0 ∧
    (wWinMain 0 0 "app.exe" 1 createFailsOS 5).trace.countP Call.isTeardownCall = 0 ∧
    (wWinMain 0 0 "app.exe" 1 createFailsOS 5).trace.getLast? =
      some (Call.Create "V-Serve" (10, 10) (1280, 720)) ∧
    (wWinMain 0 0 "app.exe" 1 freshOS 5).exit = some EXIT_SUCCESS ∧
    (wWinMain 0 0 "app.exe" 1 freshOS 5).trace.filter Call.isCloseHandle =
      [Call.CloseHandle 420] := by
  decide

/-- C6: on a launch that is not a duplicate, `set_dart_entrypoint_arguments`
is called exactly once, its argument is the very list returned by
`GetCommandLineArguments()`, the call directly follows `GetCommandLineArguments`
and precedes the construction of the window and `window.Create`, and no
`Create` call comes before it. -/
theorem arguments_forwarded_verbatim (hinstance prev : Nat) (command_line : String)
    (show_command : Int) (os : OS) (fuel : Nat) (hdup : isDuplicateLaunch os = false) :
    (wWinMain hinstance prev command_line show_command os fuel).trace.filter Call.isSetArguments =
      [Call.set_dart_entrypoint_arguments os.getCommandLineArguments] ∧
    ∃ pre post, (wWinMain hinstance prev command_line show_command os fuel).trace =
        pre ++ [Call.DartProject "data", Call.GetCommandLineArguments,
          Call.set_dart_entrypoint_arguments os.getCommandLineArguments,
          Call.FlutterWindow, Call.Create "V-Serve" (10, 10) (1280, 720)] ++ post ∧
      pre.countP Call.isCreate = 0 ∧ pre.countP Call.isSetArguments = 0 := by
  obtain ⟨post, htrace, hpost⟩ :=
    wWinMain_fresh_shape hinstance prev command_line show_command os fuel hdup
  have hpre : (initCalls os ++ lastErrorCalls os).countP Call.isSetArguments = 0 :=
    countP_startup _ os (by intro c; cases c <;> simp [Call.isInitCall, Call.isSetArguments]) rfl
  have hpre2 : (initCalls os ++ lastErrorCalls os).countP Call.isCreate = 0 :=
    countP_startup _ os (by intro c; cases c <;> simp [Call.isInitCall, Call.isCreate]) rfl
  have hpost2 : post.countP Call.isSetArguments = 0 :=
    hpost _ (by intro c; cases c <;> simp [Call.isLoopCall, Call.isSetArguments])
      (by intro c; cases c <;> simp [Call.isTeardownCall, Call.isSetArguments])
  refine ⟨?_, initCalls os ++ lastErrorCalls os, post, ?_, hpre2, hpre⟩
  · rw [htrace, List.filter_append, List.filter_append,
      filter_eq_nil_of_countP _ _ hpre, filter_eq_nil_of_countP _ _ hpost2]
    rfl
  · rw [htrace]
    rfl

/-- Witness for C6 on a first launch with arguments `--verbose`, `a b` and
the empty string. -/
theorem arguments_forwarded_verbatim_witness :
    isDuplicateLaunch freshOS = false ∧
    (wWinMain 0 0 "app.exe --verbose" 1 freshOS 5).trace.filter Call.isSetArguments =
      [Call.set_dart_entrypoint_arguments ["--verbose", "a b", ""]] :=
  ⟨by decide, (arguments_forwarded_verbatim 0 0 "app.exe --verbose" 1 freshOS 5 (by decide)).1⟩

/-- C7: on a launch that is not a duplicate, `window.Create` is called exactly
once, with title `V-Serve`, origin (10, 10) and size (1280, 720); these
arguments are the same for every entry-point parameter, every set of call
results and every bound on the loop. -/
theorem create_called_once_fixed_geometry (hinstance prev : Nat) (command_line : String)
    (show_command : Int) (os : OS) (fuel : Nat) (hdup : isDuplicateLaunch os = false) :
    (wWinMain hinstance prev command_line show_command os fuel).trace.filter Call.isCreate = [Call.Create "V-Serve" (10, 10) (1280, 720)] ∧
    (wWinMain hinstance prev command_line show_command os fuel).trace.countP Call.isCreate = 1 := by
  obtain ⟨post, htrace, hpost⟩ :=
    wWinMain_fresh_shape hinstance prev command_line show_command os fuel hdup
  have hpre : (initCalls os ++ lastErrorCalls os).countP Call.isCreate = 0 :=
    countP_startup _ os (by intro c; cases c <;> simp [Call.isInitCall, Call.isCreate]) rfl
  have hpost2 : post.countP Call.isCreate = 0 :=
    hpost _ (by intro c; cases c <;> simp [Call.isLoopCall, Call.isCreate])
      (by intro c; cases c <;> simp [Call.isTeardownCall, Call.isCreate])
  constructor
  · rw [htrace, List.filter_append, List.filter_append,
      filter_eq_nil_of_countP _ _ hpre, filter_eq_nil_of_countP _ _ hpost2]
    rfl
  · rw [htrace, List.countP_append, List.countP_append, hpre, hpost2]
    rfl

/-- Witness for C7 on a first launch. -/
theorem create_called_once_fixed_geometry_witness :
    isDuplicateLaunch freshOS = false ∧
    (wWinMain 0 0 "app.exe" 1 freshOS 5).trace.filter Call.isCreate =
      [Call.Create "V-Serve" (10, 10) (1280, 720)] :=
  ⟨by decide, (create_called_once_fixed_geometry 0 0 "app.exe" 1 freshOS 5 (by decide)).1⟩

/-- C8: every run begins with the same initialisation sequence, whatever any
call returns: `AttachConsole(ATTACH_PARENT_PROCESS)`; then, only when that
failed, the `IsDebuggerPresent` query, and `CreateAndAttachConsole` exactly
when it failed and a debugger is present; then `CoInitializeEx(nullptr,
COINIT_APARTMENTTHREADED)`; then `GdiplusStartup`; then
`CreateMutexW(nullptr, FALSE, "Local\\VServeSingleInstanceMutex")`.  None of
these calls is made again later, so `CreateMutexW` is called exactly once with
exactly that name, and no project or window call occurs among them: all such
calls come after the mutex is created. -/
theorem init_order_fixed (hinstance prev : Nat) (command_line : String)
    (show_command : Int) (os : OS) (fuel : Nat) :
    (∃ rest, (wWinMain hinstance prev command_line show_command os fuel).trace =
        [Call.AttachConsole ATTACH_PARENT_PROCESS] ++
          (if os.attachConsole = false then [Call.IsDebuggerPresent] else []) ++
          (if os.attachConsole = false ∧ os.isDebuggerPresent = true then
            [Call.CreateAndAttachConsole] else []) ++
          [Call.CoInitializeEx 0 COINIT_APARTMENTTHREADED, Call.GdiplusStartup,
            Call.CreateMutexW 0 false "Local\\VServeSingleInstanceMutex"] ++ rest ∧
      rest.countP Call.isInitCall = 0) ∧
    (wWinMain hinstance prev command_line show_command os fuel).trace.filter Call.isCreateMutexW =
      [Call.CreateMutexW 0 false "Local\\VServeSingleInstanceMutex"] ∧
    (initCalls os).countP Call.isProjectOrWindowCall = 0 ∧
    (initCalls os).countP Call.isDartProject = 0 := by
  obtain ⟨rest, htrace, hrest⟩ :=
    wWinMain_init_shape hinstance prev command_line show_command os fuel
  refine ⟨⟨rest, ?_, hrest⟩, ?_, ?_, ?_⟩
  · rw [htrace, initCalls_eq]
  · have hrest2 : rest.countP Call.isCreateMutexW = 0 := by
      rw [List.countP_eq_zero] at hrest ⊢
      intro c hc hm
      apply hrest c hc
      cases c <;> simp [Call.isCreateMutexW] at hm
      rfl
    rw [htrace, List.filter_append, filter_eq_nil_of_countP _ _ hrest2]
    cases h1 : os.attachConsole <;> cases h2 : os.isDebuggerPresent <;>
      simp [initCalls, consoleCalls, h1, h2, Call.isCreateMutexW]
  · exact countP_eq_zero_of_all _ _ _ (initCalls_all os)
      (by intro c; cases c <;> simp [Call.isInitCall, Call.isProjectOrWindowCall])
  · exact countP_eq_zero_of_all _ _ _ (initCalls_all os)
      (by intro c; cases c <;> simp [Call.isInitCall, Call.isDartProject])

/-- C9: on a launch that is not a duplicate and whose window was created,
(1) a run that has returned returned `EXIT_SUCCESS` and ends with the
teardown: `CoUninitialize` (always), then `CloseHandle` on the mutex handle
exactly when the handle is non-null, then `GdiplusShutdown(gdi_plus_token)`
exactly when the token is non-zero; the calls before it end with the
`GetMessage` that left the loop and contain no teardown call, so with a zero
token `GdiplusShutdown` is not called at all.  (2) When `GdiplusStartup`
stores nothing the token is still its initial 0.  (3) Such a run does return,
for some bound on the loop, as soon as some `GetMessage` result is 0. -/
theorem teardown_order (hinstance prev : Nat) (command_line : String)
    (show_command : Int) (os : OS) (hdup : isDuplicateLaunch os = false)
    (hc : os.windowCreate = true) :
    (∀ fuel, (wWinMain hinstance prev command_line show_command os fuel).exit.isSome = true →
      (wWinMain hinstance prev command_line show_command os fuel).exit = some EXIT_SUCCESS ∧
      (∃ pre, (wWinMain hinstance prev command_line show_command os fuel).trace =
          pre ++ [ Call.CoUninitialize] ++
            (if os.createMutexW ≠ 0 then [Call.CloseHandle os.createMutexW] else []) ++
            (if gdi_plus_token os ≠ 0 then [Call.GdiplusShutdown (gdi_plus_token os)] else []) ∧
        pre.countP Call.isTeardownCall = 0 ∧
        pre.getLast? = some (Call.GetMessage 0 0 0)) ∧
      (gdi_plus_token os = 0 → (wWinMain hinstance prev command_line show_command os fuel).trace.countP Call.isGdiplusShutdown = 0)) ∧
    (os.gdiplusStartup = none → gdi_plus_token os = 0) ∧
    (∀ n, (os.getMessage n).ret = 0 → ∃ fuel, (wWinMain hinstance prev command_line show_command os fuel).exit.isSome = true) := by
  refine ⟨?_, ?_, ?_⟩
  · intro fuel hsome
    have hloop := (wWinMain_exit_isSome_iff hinstance prev command_line show_command os fuel
      hdup hc).1 hsome
    obtain ⟨front, hfront⟩ := messageLoop_getLast os.getMessage fuel 0 hloop
    have hpre : (initCalls os ++ lastErrorCalls os ++ createCalls os ++
        [Call.SetQuitOnClose true] ++
        (messageLoop os.getMessage fuel 0).1).countP Call.isTeardownCall = 0 := by
      rw [List.countP_append, List.countP_append, List.countP_append,
        countP_startup _ os
          (by intro c; cases c <;> simp [Call.isInitCall, Call.isTeardownCall]) rfl,
        countP_eq_zero_of_all _ _ _ (messageLoop_all _ _ _)
          (by intro c; cases c <;> simp [Call.isLoopCall, Call.isTeardownCall])]
      rfl
    rw [wWinMain_quit hinstance prev command_line show_command os fuel hdup hc hloop]
    refine ⟨rfl, ⟨initCalls os ++ lastErrorCalls os ++ createCalls os ++
      [Call.SetQuitOnClose true] ++ (messageLoop os.getMessage fuel 0).1, ?_, hpre, ?_⟩, ?_⟩
    · simp [teardownCalls]
    · rw [hfront, ← List.append_assoc]
      exact List.getLast?_concat _
    · intro htok
      have hshut : ∀ c : Call, c.isTeardownCall = false → c.isGdiplusShutdown = false := by
        intro c; cases c <;> simp [Call.isTeardownCall, Call.isGdiplusShutdown]
      have hpre2 : (initCalls os ++ lastErrorCalls os ++ createCalls os ++
          [Call.SetQuitOnClose true] ++ (messageLoop os.getMessage fuel 0).1).countP
            Call.isGdiplusShutdown = 0 := by
        rw [List.countP_eq_zero] at hpre ⊢
        intro c hcm
        have := hpre c hcm
        simp [hshut c (by simpa using this)]
      have ht : (teardownCalls os).countP Call.isGdiplusShutdown = 0 := by
        unfold teardownCalls
        rw [htok]
        by_cases hm : os.createMutexW = 0
        · simp [hm, Call.isGdiplusShutdown]
        · simp [hm, Call.isGdiplusShutdown]
      rw [List.countP_append, hpre2, ht]
  · intro hnone
    simp [gdi_plus_token, hnone]
  · intro n hn
    refine ⟨n + 1, ?_⟩
    exact (wWinMain_exit_isSome_iff hinstance prev command_line show_command os (n + 1)
      hdup hc).2 (messageLoop_exits_of_zero os.getMessage n 0 (by simpa using hn))

/-- Witness for C9 on a first launch with mutex handle 420 and GDI+ token 77
whose fourth `GetMessage` returns 0. -/
theorem teardown_order_witness :
    isDuplicateLaunch freshOS = false ∧ freshOS.windowCreate = true ∧
    (wWinMain 0 0 "app.exe" 1 freshOS 4).exit = some EXIT_SUCCESS ∧
    (wWinMain 0 0 "app.exe" 1 freshOS 4).trace.filter Call.isTeardownCall =
      [ Call.CoUninitialize, Call.CloseHandle 420, Call.GdiplusShutdown 77] :=
  ⟨by decide, by decide,
    ((teardown_order 0 0 "app.exe" 1 freshOS (by decide) (by decide)).1 4 (by decide)).1,
    by decide⟩

end Runner
